import Mathlib

/-!
Verification of the tabular reconciliation-and-bucketing pipeline of the
CemesPortfolioManagement repository.

The Python sources embedded here (shallowly, over `ℚ` for floating
amounts, `Option` for missing/NaN cells, `Except` for raised errors):

* `Arreas_collected.py`  — `ArrearsProcessorAPI` (reconciliation of a
  start-of-day snapshot against a current snapshot, Policy A buckets,
  per-officer pivot with GRAND TOTAL row);
* `arrange_Dues.py`      — `DuesReportProcessor.generate_report_structure`
  (officer groups with subtotal and grand-total rows);
* `MTD_unpaid_dues.py`   — `ArrearsRiskAnalyzer` (risk scoring with
  percentile thresholds, hard overrides, printable risk sheet);
* `arrange_arrears.py`   — Policy B day-late buckets of the executive
  dashboard (`get_bucket` / `get_bucket_id`).
-/

/-! ## Generic helpers -/

attribute [local semireducible] Rat.add Rat.mul Rat.sub Rat.inv Rat.ofScientific

instance {ε α : Type} [DecidableEq ε] [DecidableEq α] : DecidableEq (Except ε α) :=
  fun a b =>
    match a, b with
    | .error x, .error y => decidable_of_iff (x = y) (by simp)
    | .error _, .ok _ => isFalse (by simp)
    | .ok _, .error _ => isFalse (by simp)
    | .ok x, .ok y => decidable_of_iff (x = y) (by simp)

/-- Round a rational to the nearest integer, ties to even
(the behaviour of `numpy`/`pandas` `round` and of Python `round`). -/
def roundHalfEven (x : ℚ) : ℤ :=
  let f : ℤ := ⌊x⌋
  let r : ℚ := x - f
  if r < 1/2 then f
  else if 1/2 < r then f + 1
  else if f % 2 = 0 then f else f + 1

/-- Round to two decimal places, ties to even: `DataFrame.round(2)`. -/
def round2 (x : ℚ) : ℚ := (roundHalfEven (x * 100) : ℚ) / 100

/-- Python `str.title()`: the first character of every alphabetic run is
upper-cased and the rest lower-cased. -/
def titleCase (s : String) : String :=
  let step : (Bool × List Char) → Char → (Bool × List Char) :=
    fun st c =>
      let c2 := if st.1 then c.toLower else c.toUpper
      (c.isAlpha, c2 :: st.2)
  String.mk (s.toList.foldl step (false, [])).2.reverse

/-- Keep only decimal digits: `str.replace(r"\D", "", regex=True)`. -/
def digitsOnly (s : String) : String :=
  String.mk (s.toList.filter Char.isDigit)

/-- Python `str.strip()`: drop leading and trailing whitespace. -/
def stripStr (s : String) : String :=
  String.mk (((s.toList.dropWhile Char.isWhitespace).reverse.dropWhile
    Char.isWhitespace).reverse)

/-- Left-to-right, non-overlapping replacement of `pat` by `rep`,
fuelled by the input length (Python `str.replace`). -/
def replaceChars (pat rep : List Char) : ℕ → List Char → List Char
  | _, [] => []
  | 0, l => l
  | Nat.succ n, c :: cs =>
    if pat.isPrefixOf (c :: cs) then
      rep ++ replaceChars pat rep n ((c :: cs).drop pat.length)
    else c :: replaceChars pat rep n cs

/-- Python `str.replace(pat, rep)` (empty pattern left untouched, as in
`String.replace`). -/
def replaceStr (s pat rep : String) : String :=
  if pat.toList.isEmpty then s
  else String.mk (replaceChars pat.toList rep.toList s.toList.length s.toList)

/-- `pandas` `Series.quantile(p)` with the default linear interpolation.
Returns `none` on an empty series (pandas returns NaN). -/
def quantileQ (l : List ℚ) (p : ℚ) : Option ℚ :=
  if l.isEmpty then none
  else
    let s := l.insertionSort (· ≤ ·)
    let n : ℕ := s.length
    let h : ℚ := p * ((n : ℚ) - 1)
    let i : ℕ := (⌊h⌋).toNat
    let lo := s.getD i 0
    let hi := s.getD (i + 1) lo
    some (lo + (h - (⌊h⌋ : ℚ)) * (hi - lo))

/-- The order in which Python `sorted` lists strings: lexicographic by
code point.  It agrees with Mathlib's `String` order (`strLE_iff_le`)
but is stated on the underlying character lists so that the kernel can
evaluate it. -/
def strLE (a b : String) : Prop :=
  a.data = b.data ∨ List.Lex (· < ·) a.data b.data

instance : DecidableRel strLE := fun _ _ =>
  inferInstanceAs (Decidable (_ ∨ _))

lemma lex_iff_toList_lt (a b : String) :
    List.Lex (· < ·) a.data b.data ↔ a.toList < b.toList :=
  Iff.rfl

instance : IsTotal String strLE :=
  ⟨fun a b => by
    rcases lt_trichotomy a.toList b.toList with h | h | h
    · exact Or.inl (Or.inr ((lex_iff_toList_lt a b).mpr h))
    · exact Or.inl (Or.inl (show a.data = b.data from h))
    · exact Or.inr (Or.inr ((lex_iff_toList_lt b a).mpr h))⟩

instance : IsTrans String strLE :=
  ⟨fun a b c hab hbc => by
    rcases hab with hab | hab <;> rcases hbc with hbc | hbc
    · exact Or.inl (hab.trans hbc)
    · exact Or.inr (by rw [show a.data = b.data from hab]; exact hbc)
    · exact Or.inr (by rw [← show b.data = c.data from hbc]; exact hab)
    · exact Or.inr ((lex_iff_toList_lt a c).mpr
        (lt_trans ((lex_iff_toList_lt a b).mp hab) ((lex_iff_toList_lt b c).mp hbc)))⟩

lemma strLE_iff_le (a b : String) : strLE a b ↔ a ≤ b := by
  rw [String.le_iff_toList_le, le_iff_lt_or_eq]
  constructor
  · rintro (h | h)
    · exact Or.inr (show a.toList = b.toList from h)
    · exact Or.inl ((lex_iff_toList_lt a b).mp h)
  · rintro (h | h)
    · exact Or.inr ((lex_iff_toList_lt a b).mpr h)
    · exact Or.inl (show a.data = b.data from h)

/-! ## Policy A buckets (`Arreas_collected.py`, `get_bucket`, lines 25-34) -/

/-- `ArrearsProcessorAPI.get_bucket`: arrears aging buckets, Policy A. -/
def getBucketA (d : ℚ) : String :=
  if 1 ≤ d ∧ d ≤ 15 then "1-15"
  else if 16 ≤ d ∧ d ≤ 30 then "16-30"
  else if 31 ≤ d ∧ d ≤ 180 then "31-180"
  else "Other"

/-- `get_bucket` as applied to the `Age_SOD` column, whose cells may be
NaN (a NaN compares false against every bound, so it falls through to
`Other`). -/
def getBucketAOpt (d : Option ℚ) : String :=
  match d with
  | none => "Other"
  | some q => getBucketA q

/-- `ArrearsProcessorAPI.VALID_BUCKETS`. -/
def validBuckets : List String := ["1-15", "16-30", "31-180"]

/-! ## Policy B buckets (`arrange_arrears.py`, lines 93-109) -/

/-- `get_bucket` of `create_enterprise_dashboard`: fine-grained days-late
buckets, Policy B. -/
def getBucketB (d : ℚ) : String :=
  if d < 1 then "Current"
  else if 1 ≤ d ∧ d ≤ 3 then "1-3 Days"
  else if 4 ≤ d ∧ d ≤ 5 then "4-5 Days"
  else if 6 ≤ d ∧ d ≤ 9 then "6-9 Days"
  else if 10 ≤ d ∧ d ≤ 30 then "10-30 Days"
  else "31+ Days"

/-- `get_bucket_id`: dense ordinal companion of `getBucketB`. -/
def getBucketIdB (d : ℚ) : ℕ :=
  if d < 1 then 0
  else if 1 ≤ d ∧ d ≤ 3 then 1
  else if 4 ≤ d ∧ d ≤ 5 then 2
  else if 6 ≤ d ∧ d ≤ 9 then 3
  else if 10 ≤ d ∧ d ≤ 30 then 4
  else 5

/-- The Policy B labels in bucket order; the ordinal of a label is its
index in this list. -/
def bucketOrderB : List String :=
  ["Current", "1-3 Days", "4-5 Days", "6-9 Days", "10-30 Days", "31+ Days"]

/-! ## `Arreas_collected.py` — `ArrearsProcessorAPI` data model -/

/-- One raw row of the start-of-day upload after `pd.to_numeric(...,
errors="coerce")`: `none` models a missing cell or a failed numeric
parse (NaN). -/
structure SodRaw where
  loanId : Option ℤ
  salesRep : Option String
  arrears : Option ℚ
  age : Option ℚ
deriving DecidableEq

/-- One raw row of the current-snapshot upload. -/
structure CurRaw where
  loanId : Option ℤ
  arrears : Option ℚ
deriving DecidableEq

/-- The start-of-day table: column-presence flags (checked by
`validate_dataframes` against `REQUIRED_COLUMNS_SOD`) plus rows. -/
structure SodTable where
  hasLoanId : Bool
  hasSalesRep : Bool
  hasArrears : Bool
  hasDays : Bool
  rows : List SodRaw
deriving DecidableEq

/-- The current table: flags checked against `REQUIRED_COLUMNS_CUR`. -/
structure CurTable where
  hasLoanId : Bool
  hasArrears : Bool
  rows : List CurRaw
deriving DecidableEq

/-- A start-of-day file handed to `load_and_clean_data`: either the
loader raised (unreadable bytes) or it produced a table. -/
inductive FileSod where
  | unreadable (msg : String)
  | tbl (t : SodTable)
deriving DecidableEq

/-- A current-snapshot file handed to `load_and_clean_data`. -/
inductive FileCur where
  | unreadable (msg : String)
  | tbl (t : CurTable)
deriving DecidableEq

/-- `normalize_officer_names` applied to one cell: `astype(str)` turns a
missing cell into the string `"nan"`, then strip, the static
correction table, and `str.title()`. -/
def normalizeOfficer (s : Option String) : String :=
  let s0 := stripStr (s.getD "nan")
  let s1 := replaceStr (replaceStr (replaceStr s0
      "Brian Wanj:" "Brian Wanjau") "Brian Wanjau:" "Brian Wanjau") "Brian W." "Brian Wanjau"
  titleCase s1

/-- A SOD row that survived `dropna(subset=["LoanId", "SalesRep",
"Arrears_SOD"])` (after `normalize_officer_names` the `SalesRep` column
holds strings, never NaN, so only the other two fields can drop a row). -/
structure SodClean where
  loanId : ℤ
  salesRep : String
  arrears : ℚ
  age : Option ℚ
deriving DecidableEq

/-- A current row that survived `dropna(subset=["LoanId", "Arrears_CUR"])`. -/
structure CurClean where
  loanId : ℤ
  arrears : ℚ
deriving DecidableEq

/-- Lines 196-203 of `process_data`: numeric coercion plus `dropna` on
the SOD side.  `Age_SOD` is not in the `dropna` subset, so a row with an
unparseable age survives with the cell still missing. -/
def cleanSodRows (rows : List SodRaw) : List SodClean :=
  rows.filterMap (fun r =>
    match r.loanId, r.arrears with
    | some k, some a => some ⟨k, normalizeOfficer r.salesRep, a, r.age⟩
    | _, _ => none)

/-- Numeric coercion plus `dropna` on the current side. -/
def cleanCurRows (rows : List CurRaw) : List CurClean :=
  rows.filterMap (fun r =>
    match r.loanId, r.arrears with
    | some k, some a => some ⟨k, a⟩
    | _, _ => none)

/-- One row of the left-join result (`df_merged`), after
`fillna(0)` on `Arrears_CUR` and the `Collected` computation. -/
structure MergedRow where
  loanId : ℤ
  salesRep : String
  arrearsSOD : ℚ
  ageSOD : Option ℚ
  arrearsCUR : ℚ
  collected : ℚ
deriving DecidableEq

/-- A row of `df_collected` with its Policy A bucket. -/
structure CollectedRow where
  row : MergedRow
  bucket : String
deriving DecidableEq

/-- Current-side lookup of the left join (keys are unique whenever the
join is performed, thanks to `validate="one_to_one"`). -/
def lookupCur (cur : List CurClean) (k : ℤ) : Option ℚ :=
  (cur.find? (fun c => c.loanId == k)).map (fun c => c.arrears)

/-- The left join of lines 209-221: every clean SOD row yields exactly
one merged row; an unmatched row gets `Arrears_CUR = 0` (`fillna(0)`). -/
def mergeRows (sod : List SodClean) (cur : List CurClean) : List MergedRow :=
  sod.map (fun s =>
    let ac := (lookupCur cur s.loanId).getD 0
    ⟨s.loanId, s.salesRep, s.arrears, s.age, ac, s.arrears - ac⟩)

/-- The triple returned by `process_data`. -/
structure ProcOutput where
  collected : List CollectedRow
  merged : List MergedRow
  officers : List String
deriving DecidableEq

/-- `ArrearsProcessorAPI.process_data` (lines 173-233): load, validate
required columns, clean, reject duplicate join keys
(`validate="one_to_one"` raises `MergeError`), left-join, compute
`Collected`, keep positive collections, bucket them, and drop buckets
outside `VALID_BUCKETS`. -/
def processData (fs : FileSod) (fc : FileCur) : Except String ProcOutput :=
  match fs with
  | .unreadable msg => .error ("Error loading " ++ msg)
  | .tbl ts =>
    match fc with
    | .unreadable msg => .error ("Error loading " ++ msg)
    | .tbl tc =>
      if ts.hasLoanId && ts.hasSalesRep && ts.hasArrears && ts.hasDays then
        if tc.hasLoanId && tc.hasArrears then
          let sodC := cleanSodRows ts.rows
          let curC := cleanCurRows tc.rows
          let officers := ((sodC.map (fun r => r.salesRep)).dedup).insertionSort strLE
          if (sodC.map (fun r => r.loanId)).Nodup then
            if (curC.map (fun r => r.loanId)).Nodup then
              let merged := mergeRows sodC curC
              let collected := (merged.filter (fun m => decide (0 < m.collected))).map
                (fun m => CollectedRow.mk m (getBucketAOpt m.ageSOD))
              .ok ⟨collected.filter (fun c => validBuckets.contains c.bucket),
                   merged, officers⟩
            else .error "Merge keys are not unique in right dataset; not a one-to-one merge"
          else .error "Merge keys are not unique in left dataset; not a one-to-one merge"
        else .error "Current file missing columns"
      else .error "Start-of-Day file missing columns"

/-! ## `Arreas_collected.py` — `create_formatted_table` (lines 235-316) -/

/-- `parse_targets_from_json` on already-numeric JSON values: each
target is rounded to two decimals on entry (`round(float(target), 2)`). -/
def parseTargets (ts : List (String × ℚ)) : List (String × ℚ) :=
  ts.map (fun p => (p.1, round2 p.2))

/-- One row of the summary pivot.  The three bucket columns and the
`Grand Total` column are always present; `Target`, `Remaining` and
`Achievement %` exist only when officer targets were supplied. -/
structure SummaryRow where
  officer : String
  b15 : ℚ
  b30 : ℚ
  b180 : ℚ
  grandTotal : ℚ
  target : Option ℚ
  remaining : Option ℚ
  achievement : Option ℚ
deriving DecidableEq

/-- `pivot_table(values="Collected", index="SalesRep", columns="Bucket",
aggfunc="sum", fill_value=0)`: one cell of the pivot. -/
def cellSum (c : List CollectedRow) (o b : String) : ℚ :=
  ((c.filter (fun r => r.row.salesRep == o && r.bucket == b)).map
    (fun r => r.row.collected)).sum

/-- The officers that actually appear in `df_collected`; the pivot index
is sorted ascending by pandas. -/
def presentOfficers (c : List CollectedRow) : List String :=
  ((c.map (fun r => r.row.salesRep)).dedup).insertionSort strLE

/-- One officer row of the pivot: the three bucket cells plus the
`Grand Total` column (`pivot.sum(axis=1)`). -/
def baseRow (c : List CollectedRow) (o : String) : SummaryRow :=
  let a := cellSum c o "1-15"
  let b := cellSum c o "16-30"
  let d := cellSum c o "31-180"
  ⟨o, a, b, d, a + b + d, none, none, none⟩

/-- First-hit target lookup with default 0 (officers missing from the
dictionary are assigned target `0.0`). -/
def lookupTarget (ts : List (String × ℚ)) (o : String) : ℚ :=
  ((ts.find? (fun p => p.1 == o)).map (fun p => p.2)).getD 0

/-- Lines 279-295: the `Target`, `Remaining = Target - Grand Total` and
`Achievement % = where(Target > 0, Grand Total / Target * 100, 0)`
columns. -/
def withTargets (ts : List (String × ℚ)) (r : SummaryRow) : SummaryRow :=
  let t := lookupTarget ts r.officer
  { r with
    target := some t
    remaining := some (t - r.grandTotal)
    achievement := some (if 0 < t then r.grandTotal / t * 100 else 0) }

/-- Lines 251-255: append a zero row for every officer of the master
list that is absent from the pivot index; each append is checked
against the updated index, so a duplicated master entry is added once. -/
def addMissing (present : List String) (officers : List String) : List String :=
  officers.foldl (fun acc o => if acc.contains o then acc else acc ++ [o]) present

/-- The pivot index after the zero rows were appended. -/
def summaryNames (c : List CollectedRow) (officers : List String) : List String :=
  addMissing (presentOfficers c) officers

/-- The summary table before the final `round(2)`: the sorted officer
rows and the `GRAND TOTAL` row. -/
structure SummaryTable where
  rows : List SummaryRow
  grand : SummaryRow
deriving DecidableEq

/-- `create_formatted_table` up to (excluding) the final rounding:
pivot, zero rows for absent officers, `Grand Total` column, sort by
`Grand Total` descending, target columns, and the `GRAND TOTAL` row
(`pivot.sum(axis=0)`, with `Target` summed and `Remaining` /
`Achievement %` recomputed from the grand totals). -/
def summaryUnrounded (c : List CollectedRow) (officers : List String)
    (targetsJson : Option (List (String × ℚ))) : SummaryTable :=
  let ts := parseTargets (targetsJson.getD [])
  let rows0 := (summaryNames c officers).map (baseRow c)
  let sorted := rows0.insertionSort (fun a b => b.grandTotal ≤ a.grandTotal)
  let rows := if ts.isEmpty then sorted else sorted.map (withTargets ts)
  let g0 : SummaryRow :=
    ⟨"GRAND TOTAL", (rows.map (fun r => r.b15)).sum, (rows.map (fun r => r.b30)).sum,
      (rows.map (fun r => r.b180)).sum, (rows.map (fun r => r.grandTotal)).sum,
      none, none, none⟩
  let grand :=
    if ts.isEmpty then g0
    else
      let gt := (rows.map (fun r => r.target.getD 0)).sum
      { g0 with
        target := some gt
        remaining := some (gt - g0.grandTotal)
        achievement := some (if 0 < gt then g0.grandTotal / gt * 100 else 0) }
  ⟨rows, grand⟩

/-- The final `round(2)` applied to every numeric column. -/
def roundRow (r : SummaryRow) : SummaryRow :=
  ⟨r.officer, round2 r.b15, round2 r.b30, round2 r.b180, round2 r.grandTotal,
    r.target.map round2, r.remaining.map round2, r.achievement.map round2⟩

/-- `create_formatted_table`: the presented table, rounded once at the
end (`final_df[numeric_cols].round(2)`), officer rows first, `GRAND
TOTAL` row last. -/
def createFormattedTable (c : List CollectedRow) (officers : List String)
    (targetsJson : Option (List (String × ℚ))) : List SummaryRow :=
  let t := summaryUnrounded c officers targetsJson
  (t.rows ++ [t.grand]).map roundRow

/-! ## `Arreas_collected.py` — `ArrearsProcessorAPI.process` (lines 525-587) -/

/-- Lower-case a string character-wise (`str.lower()`). -/
def lowerStr (s : String) : String :=
  String.mk (s.toList.map Char.toLower)

/-- The summary numbers of `generate_json_report` (lines 466-523). -/
structure JsonSummary where
  totalCollected : ℚ
  totalLoansCollected : ℕ
  officerCount : ℕ
  totalLoansProcessed : ℕ
deriving DecidableEq

/-- `generate_json_report`: summary statistics over the collected and
merged tables. -/
def jsonSummaryOf (collected : List CollectedRow) (merged : List MergedRow) :
    JsonSummary :=
  ⟨(collected.map (fun c => c.row.collected)).sum,
    collected.length,
    ((collected.map (fun c => c.row.salesRep)).dedup).length,
    merged.length⟩

/-- The response dictionary of `ArrearsProcessorAPI.process`: its
`status` key, `message`, and (for non-empty results) the summary table. -/
structure ProcResp where
  status : String
  message : String
  table : Option (List SummaryRow)
deriving DecidableEq

/-- `ArrearsProcessorAPI.process`: the public entry point.  Every raised
error is caught and turned into a `status = "error"` dictionary; an
empty collected table is a `status = "success"` "no collections"
response; otherwise the formatted table is built and returned as Excel
or JSON (both `status = "success"`). -/
def processAPI (fs : FileSod) (fc : FileCur)
    (targets : Option (List (String × ℚ))) (fmt : String) : ProcResp :=
  match processData fs fc with
  | .error e => ⟨"error", "Error processing data: " ++ e, none⟩
  | .ok out =>
    if out.collected.isEmpty then
      ⟨"success", "No collections found in the data", none⟩
    else
      let finalT := createFormattedTable out.collected out.officers targets
      if lowerStr fmt == "excel" then
        ⟨"success", "Excel report generated successfully", some finalT⟩
      else
        ⟨"success", "json report", some finalT⟩

/-! ## `arrange_Dues.py` — `generate_report_structure` (lines 213-313) -/

/-- One cleaned dues row (`Field Officer` filled with `"Unknown"` and
stripped before grouping; the four summed columns are numeric). -/
structure DuesRow where
  officer : String
  clientName : String
  installmentNo : ℚ
  amountDue : ℚ
  arrears : ℚ
  amountPaid : ℚ
  loanBalance : ℚ
deriving DecidableEq

/-- Line 227: `self.groups = sorted(self.df[grouping_column].unique())` —
the officer groups in presentation order. -/
def duesGroups (rows : List DuesRow) : List String :=
  ((rows.map (fun r => r.officer)).dedup).insertionSort strLE

/-- Lines 258-263: one group subtotal on one numeric column. -/
def duesGroupTotal (rows : List DuesRow) (g : String) (v : DuesRow → ℚ) : ℚ :=
  ((rows.filter (fun r => r.officer == g)).map v).sum

/-- Lines 229-287: the grand total accumulated as
`self.grand_totals[col] += subtotal` over the groups. -/
def duesGrandTotal (rows : List DuesRow) (v : DuesRow → ℚ) : ℚ :=
  ((duesGroups rows).map (fun g => duesGroupTotal rows g v)).sum

/-! ## `MTD_unpaid_dues.py` — `ArrearsRiskAnalyzer` -/

/-- One raw row of the risk upload; `none` is a missing cell/NaN. -/
structure RiskRawRow where
  fullNames : Option String
  phone : Option String
  installmentNo : Option ℚ
  amountDue : Option ℚ
  arrears : Option ℚ
  loanBalance : Option ℚ
  fundedAmount : Option ℚ
  fieldOfficer : Option String
deriving DecidableEq

/-- The raw risk table with column-presence flags.  `load_and_clean_data`
itself only defaults the `FundedAmount` and `FieldOfficer` columns; the
other columns are required later by `calculate_risk_metrics`. -/
structure RiskRawTable where
  hasPhone : Bool
  hasInstallment : Bool
  hasArrears : Bool
  hasBalance : Bool
  hasOfficer : Bool
  hasFunded : Bool
  rows : List RiskRawRow
deriving DecidableEq

/-- A cleaned risk row: numerics `to_numeric(...).fillna(0)`, phone
digit-stripped after `astype(str)` (NaN becomes `"nan"` and then `""`),
officer defaulted to `"Unassigned"` only when the whole column is
missing. -/
structure RiskRow where
  fullNames : Option String
  phone : String
  installmentNo : ℚ
  amountDue : ℚ
  arrears : ℚ
  loanBalance : ℚ
  fundedAmount : ℚ
  fieldOfficer : Option String
deriving DecidableEq

/-- `load_and_clean_data` on one row (lines 81-95). -/
def cleanRiskRow (hasOfficer hasFunded : Bool) (r : RiskRawRow) : RiskRow :=
  ⟨r.fullNames,
    digitsOnly (r.phone.getD "nan"),
    r.installmentNo.getD 0, r.amountDue.getD 0, r.arrears.getD 0,
    r.loanBalance.getD 0,
    if hasFunded then r.fundedAmount.getD 0 else 0,
    if hasOfficer then r.fieldOfficer else some "Unassigned"⟩

/-- The cleaned risk table (`self.df`) with the flags that
`calculate_risk_metrics` needs. -/
structure RiskTable where
  hasPhone : Bool
  hasInstallment : Bool
  hasArrears : Bool
  hasBalance : Bool
  rows : List RiskRow
deriving DecidableEq

/-- A risk file handed to `load_and_clean_data`: unreadable bytes or a
table. -/
inductive RiskFile where
  | unreadable (msg : String)
  | tbl (t : RiskRawTable)
deriving DecidableEq

/-- `ArrearsRiskAnalyzer.load_and_clean_data` (lines 37-110). -/
def loadCleanRisk : RiskFile → Except String RiskTable
  | .unreadable msg => .error ("Error reading file: " ++ msg)
  | .tbl t =>
    .ok ⟨t.hasPhone, t.hasInstallment, t.hasArrears, t.hasBalance,
      t.rows.map (cleanRiskRow t.hasOfficer t.hasFunded)⟩

/-- The sort key of line 124:
`df.sort_values(by=["PhoneNumber", "InstallmentNo"])`. -/
def riskRowLE (a b : RiskRow) : Prop :=
  a.phone < b.phone ∨ (a.phone = b.phone ∧ a.installmentNo ≤ b.installmentNo)

instance : DecidableRel riskRowLE := fun a b => by
  unfold riskRowLE
  infer_instance

/-- `groupby("PhoneNumber").tail(1)` on a phone-sorted list: keep the
last row of each phone run. -/
def lastPerPhone : List RiskRow → List RiskRow
  | [] => []
  | [r] => [r]
  | r :: s :: rest =>
    if r.phone = s.phone then lastPerPhone (s :: rest)
    else r :: lastPerPhone (s :: rest)

/-- Lines 127-134: `MissedInstallments` = number of rows of the account
with `Arrears > 0` (over all rows, not just the latest). -/
def missedCount (rows : List RiskRow) (p : String) : ℕ :=
  (rows.filter (fun r => r.phone == p && decide (0 < r.arrears))).length

/-- `latest_status` (lines 124-125). -/
def latestRows (t : RiskTable) : List RiskRow :=
  lastPerPhone (t.rows.insertionSort riskRowLE)

/-- `customer_risk` rows before scoring: each latest row with its missed
count (lines 137-138). -/
def riskPairs (t : RiskTable) : List (RiskRow × ℕ) :=
  (latestRows t).map (fun r => (r, missedCount t.rows r.phone))

/-- `arrears_cap = customer_risk["Arrears"].quantile(0.95)` (line 141). -/
def arrearsCap (t : RiskTable) : ℚ :=
  (quantileQ ((riskPairs t).map (fun p => p.1.arrears)) (0.95 : ℚ)).getD 0

/-- `balance_cap = customer_risk["LoanBalance"].quantile(0.95)` (line 142). -/
def balanceCap (t : RiskTable) : ℚ :=
  (quantileQ ((riskPairs t).map (fun p => p.1.loanBalance)) (0.95 : ℚ)).getD 0

/-- Lines 144-152: the capped, weighted risk score. -/
def scoreOf (t : RiskTable) (r : RiskRow) (m : ℕ) : ℚ :=
  min r.arrears (arrearsCap t) * (0.50 : ℚ) +
    min (m : ℚ) 12 * (0.35 : ℚ) +
    min r.loanBalance (balanceCap t) * (0.15 : ℚ)

/-- The cohort's risk scores. -/
def riskScores (t : RiskTable) : List ℚ :=
  (riskPairs t).map (fun p => scoreOf t p.1 p.2)

/-- `q40 = customer_risk["RiskScore"].quantile(0.40)` (line 155). -/
def scoreQ40 (t : RiskTable) : ℚ := (quantileQ (riskScores t) (0.40 : ℚ)).getD 0

/-- `q75 = customer_risk["RiskScore"].quantile(0.75)` (line 156). -/
def scoreQ75 (t : RiskTable) : ℚ := (quantileQ (riskScores t) (0.75 : ℚ)).getD 0

/-- `determine_category` (lines 158-168): two hard rules, then the
percentile rules, first match wins. -/
def determineCategory (m : ℕ) (arrears score q40 q75 : ℚ) : String :=
  if 4 ≤ m then "High Risk"
  else if 5000 < arrears then "High Risk"
  else if q75 ≤ score then "High Risk"
  else if q40 ≤ score then "Medium Risk"
  else "Low Risk"

/-- One row of `customer_risk` after scoring and categorization. -/
structure ScoredRow where
  row : RiskRow
  missed : ℕ
  score : ℚ
  category : String
deriving DecidableEq

/-- Lines 148-170: score and categorize every account of the cohort. -/
def scoredRows (t : RiskTable) : List ScoredRow :=
  (riskPairs t).map (fun p =>
    let s := scoreOf t p.1 p.2
    ⟨p.1, p.2, s, determineCategory p.2 p.1.arrears s (scoreQ40 t) (scoreQ75 t)⟩)

/-- `sort_values(by="RiskScore", ascending=False)` (line 171). -/
def scoreDescRel (a b : ScoredRow) : Prop := b.score ≤ a.score

instance : DecidableRel scoreDescRel := fun a b => by
  unfold scoreDescRel
  infer_instance

/-- `ArrearsRiskAnalyzer.calculate_risk_metrics` (lines 112-199):
errors when no data is loaded or a required column is absent
(`KeyError` caught by the broad `except`), otherwise scores the cohort.
An empty cohort yields an empty (successful) result. -/
def calculateRiskMetrics (dfo : Option RiskTable) : Except String (List ScoredRow) :=
  match dfo with
  | none => .error "No data loaded. Please load data first."
  | some t =>
    if t.hasPhone && t.hasInstallment && t.hasArrears && t.hasBalance then
      .ok ((scoredRows t).insertionSort scoreDescRel)
    else .error "Error calculating risk metrics: KeyError"

/-! ## `MTD_unpaid_dues.py` — `build_printable_risk_sheet` (lines 201-267) -/

/-- One presentation row of the printable risk sheet. -/
inductive SheetRow where
  | header (officer : String)
  | detail (s : ScoredRow)
  | subtotal (officer cat : String) (arrears balance : ℚ) (missed : ℕ) (score : ℚ)
  | spacer
deriving DecidableEq

/-- The canonical severity order of lines 247 and 353. -/
def riskCats : List String := ["High Risk", "Medium Risk", "Low Risk"]

/-- `groupby("FieldOfficer")` iterates its keys in ascending order
(rows with a missing officer are dropped by pandas `groupby`). -/
def sheetOfficers (cr : List ScoredRow) : List String :=
  ((cr.filterMap (fun s => s.row.fieldOfficer)).dedup).insertionSort strLE

/-- Lines 247-261: the detail rows of one risk tier (score-descending)
followed by its subtotal row; empty tiers are skipped. -/
def catBlock (cr : List ScoredRow) (o cat : String) : List SheetRow :=
  let blk := (cr.filter (fun s =>
    s.row.fieldOfficer == some o && s.category == cat)).insertionSort scoreDescRel
  if blk.isEmpty then []
  else blk.map .detail ++
    [.subtotal o cat ((blk.map (fun s => s.row.arrears)).sum)
      ((blk.map (fun s => s.row.loanBalance)).sum)
      ((blk.map (fun s => s.missed)).sum)
      ((blk.map (fun s => s.score)).sum)]

/-- Lines 244-262: one officer's portfolio block. -/
def officerBlock (cr : List ScoredRow) (o : String) : List SheetRow :=
  [SheetRow.header o] ++ (riskCats.map (catBlock cr o)).flatten ++ [SheetRow.spacer]

/-- `build_printable_risk_sheet`: officer blocks in officer order. -/
def printableSheet (cr : List ScoredRow) : List SheetRow :=
  ((sheetOfficers cr).map (officerBlock cr)).flatten

/-- The response dictionary of `ArrearsRiskAnalyzer.analyze`. -/
structure RiskResp where
  status : String
  message : String
  ranking : Option (List SheetRow)
deriving DecidableEq

/-- `ArrearsRiskAnalyzer.analyze` (lines 567-641): load, score, build
the report; every failure path produces a `status = "error"` response,
the success path a `status = "success"` one. -/
def analyzeAPI (fi : RiskFile) : RiskResp :=
  match loadCleanRisk fi with
  | .error m => ⟨"error", m, none⟩
  | .ok t =>
    match calculateRiskMetrics (some t) with
    | .error m => ⟨"error", m, none⟩
    | .ok cr => ⟨"success", "Analysis complete", some (printableSheet cr)⟩

/-! ## General lemmas about sums and the officer index -/

lemma sum_map_add {κ : Type} (ks : List κ) (g h : κ → ℚ) :
    (ks.map (fun k => g k + h k)).sum = (ks.map g).sum + (ks.map h).sum := by
  induction ks with
  | nil => simp
  | cons a as ih => simp only [List.map_cons, List.sum_cons, ih]; ring

lemma sum_map_sub {κ : Type} (ks : List κ) (g h : κ → ℚ) :
    (ks.map (fun k => g k - h k)).sum = (ks.map g).sum - (ks.map h).sum := by
  induction ks with
  | nil => simp
  | cons a as ih => simp only [List.map_cons, List.sum_cons, ih]; ring

lemma sum_ite_key_zero {κ : Type} [DecidableEq κ] (ks : List κ) (k0 : κ) (q : ℚ)
    (h : k0 ∉ ks) :
    (ks.map (fun k => if k0 = k then q else 0)).sum = 0 := by
  induction ks with
  | nil => simp
  | cons a as ih =>
    simp only [List.map_cons, List.sum_cons]
    rw [if_neg (fun he => h (by rw [he]; exact List.mem_cons_self a as)),
      ih (fun hm => h (List.mem_cons_of_mem _ hm))]
    ring

lemma sum_ite_key {κ : Type} [DecidableEq κ] (ks : List κ) (k0 : κ) (q : ℚ)
    (hnd : ks.Nodup) (hmem : k0 ∈ ks) :
    (ks.map (fun k => if k0 = k then q else 0)).sum = q := by
  induction ks with
  | nil => cases hmem
  | cons a as ih =>
    simp only [List.map_cons, List.sum_cons]
    rcases List.mem_cons.mp hmem with rfl | hm
    · rw [if_pos rfl, sum_ite_key_zero as k0 q (List.nodup_cons.mp hnd).1]
      ring
    · have hne : k0 ≠ a := by
        rintro rfl
        exact (List.nodup_cons.mp hnd).1 hm
      rw [if_neg hne, ih (List.nodup_cons.mp hnd).2 hm]
      ring

/-- Summing fiber-wise over a duplicate-free list of keys that covers
every row gives the total sum. -/
lemma sum_fiberwise {α κ : Type} [DecidableEq κ] (l : List α) (key : α → κ)
    (f : α → ℚ) (ks : List κ) (hnd : ks.Nodup) (hcov : ∀ x ∈ l, key x ∈ ks) :
    (ks.map (fun k => ((l.filter (fun x => decide (key x = k))).map f).sum)).sum
      = (l.map f).sum := by
  induction l with
  | nil => simp
  | cons x xs ih =>
    have hx : key x ∈ ks := hcov x (List.mem_cons_self x xs)
    have hxs : ∀ y ∈ xs, key y ∈ ks := fun y hy => hcov y (List.mem_cons_of_mem x hy)
    have hstep : ∀ k : κ,
        (((x :: xs).filter (fun a => decide (key a = k))).map f).sum
          = (if key x = k then f x else 0)
            + ((xs.filter (fun a => decide (key a = k))).map f).sum := by
      intro k
      by_cases hk : key x = k
      · simp [List.filter_cons, hk]
      · simp [List.filter_cons, hk]
    simp only [hstep, sum_map_add, sum_ite_key ks (key x) (f x) hnd hx, ih hxs,
      List.map_cons, List.sum_cons]

lemma addMissing_sub (offs : List String) :
    ∀ p x, x ∈ p → x ∈ addMissing p offs := by
  induction offs with
  | nil => exact fun p x hx => hx
  | cons o os ih =>
    intro p x hx
    show x ∈ List.foldl _ (if p.contains o then p else p ++ [o]) os
    by_cases hc : p.contains o
    · rw [if_pos hc]
      exact ih p x hx
    · rw [if_neg hc]
      exact ih (p ++ [o]) x (List.mem_append_left _ hx)

lemma addMissing_nodup (offs : List String) :
    ∀ p : List String, p.Nodup → (addMissing p offs).Nodup := by
  induction offs with
  | nil => exact fun p hp => hp
  | cons o os ih =>
    intro p hp
    show (List.foldl _ (if p.contains o then p else p ++ [o]) os).Nodup
    by_cases hc : p.contains o
    · rw [if_pos hc]
      exact ih p hp
    · rw [if_neg hc]
      refine ih (p ++ [o]) ?_
      have ho : o ∉ p := fun hm => hc (List.elem_eq_true_of_mem hm)
      simp [List.nodup_append, hp, ho]

lemma presentOfficers_nodup (c : List CollectedRow) : (presentOfficers c).Nodup :=
  (List.perm_insertionSort _ _).nodup_iff.mpr (List.nodup_dedup _)

lemma mem_presentOfficers {c : List CollectedRow} {r : CollectedRow} (h : r ∈ c) :
    r.row.salesRep ∈ presentOfficers c := by
  unfold presentOfficers
  rw [List.mem_insertionSort, List.mem_dedup]
  exact List.mem_map_of_mem _ h

lemma summaryNames_nodup (c : List CollectedRow) (officers : List String) :
    (summaryNames c officers).Nodup :=
  addMissing_nodup officers _ (presentOfficers_nodup c)

lemma mem_summaryNames {c : List CollectedRow} {r : CollectedRow}
    (officers : List String) (h : r ∈ c) :
    r.row.salesRep ∈ summaryNames c officers :=
  addMissing_sub officers _ _ (mem_presentOfficers h)

/-! ## Claim C2 -/

/-- First-match evaluation of an ordered rule list. -/
def firstRule : List (Bool × String) → String → String
  | [], d => d
  | (b, lab) :: rest, d => if b then lab else firstRule rest d

/-- The category decision exactly as the spec words it: the strict rule
order `missed >= 4 -> High`, `arrears > 5000 -> High`,
`score >= p75 -> High`, `score >= p40 -> Medium`, else `Low`, first
match wins. -/
def riskCategorySpec (m : ℕ) (arrears score q40 q75 : ℚ) : String :=
  firstRule
    [(decide (4 ≤ m), "High Risk"),
      (decide (5000 < arrears), "High Risk"),
      (decide (q75 ≤ score), "High Risk"),
      (decide (q40 ≤ score), "Medium Risk")]
    "Low Risk"

lemma determineCategory_eq_spec (m : ℕ) (a s q40 q75 : ℚ) :
    determineCategory m a s q40 q75 = riskCategorySpec m a s q40 q75 := by
  unfold determineCategory riskCategorySpec
  by_cases h1 : 4 ≤ m <;> by_cases h2 : 5000 < a <;>
    by_cases h3 : q75 ≤ s <;> by_cases h4 : q40 ≤ s <;>
    simp [firstRule, h1, h2, h3, h4]

lemma calculateRiskMetrics_ok_inv {t : RiskTable} {res : List ScoredRow}
    (h : calculateRiskMetrics (some t) = .ok res) :
    res = (scoredRows t).insertionSort scoreDescRel := by
  simp only [calculateRiskMetrics] at h
  split at h
  · exact (Except.ok.inj h).symm
  · exact absurd h (by simp)

/-- C2: for every cohort and every account in it, the risk category is
decided by the first matching rule of the strict order
`missed_installments >= 4 -> High Risk`, `arrears > 5000 -> High Risk`,
`risk_score >= p75 -> High Risk`, `risk_score >= p40 -> Medium Risk`,
else `Low Risk`; in particular an account with `missed_installments = 5`
whose score is below the cohort's 40th percentile is still High Risk. -/
theorem C2_risk_category_rule_order :
    (∀ (m : ℕ) (a s q40 q75 : ℚ),
      determineCategory m a s q40 q75 = riskCategorySpec m a s q40 q75)
    ∧ (∀ (t : RiskTable) (res : List ScoredRow),
        calculateRiskMetrics (some t) = .ok res →
        ∀ x ∈ res, x.category =
          riskCategorySpec x.missed x.row.arrears x.score (scoreQ40 t) (scoreQ75 t))
    ∧ (∀ (m : ℕ) (a s q40 q75 : ℚ), m = 5 → s < q40 →
        determineCategory m a s q40 q75 = "High Risk") := by
  refine ⟨determineCategory_eq_spec, ?_, ?_⟩
  · intro t res h x hx
    rw [calculateRiskMetrics_ok_inv h, List.mem_insertionSort] at hx
    simp only [scoredRows, List.mem_map] at hx
    obtain ⟨p, _, rfl⟩ := hx
    exact determineCategory_eq_spec _ _ _ _ _
  · intro m a s q40 q75 hm _
    subst hm
    unfold determineCategory
    rw [if_pos (by omega)]

/-- A one-account cohort used to witness C2's cohort-level conjunct:
phone "1", one installment with arrears 100 and balance 0. -/
def c2Row : RiskRow := ⟨none, "1", 1, 0, 100, 0, 0, some "A"⟩

/-- The cohort table around `c2Row`. -/
def c2Table : RiskTable := ⟨true, true, true, true, [c2Row]⟩

/-- The scored result for `c2Table`: missed 1, score
`min 100 100 * 0.5 + min 1 12 * 0.35 + 0 * 0.15 = 50.35`, and since the
75th percentile of a one-element cohort is the element itself, rule (c)
gives High Risk. -/
def c2Scored : ScoredRow := ⟨c2Row, 1, mkRat 1007 20, "High Risk"⟩

theorem C2_risk_category_rule_order_witness :
    determineCategory 5 100 0 10 20 = "High Risk"
    ∧ c2Scored.category = riskCategorySpec c2Scored.missed c2Scored.row.arrears
        c2Scored.score (scoreQ40 c2Table) (scoreQ75 c2Table) :=
  ⟨C2_risk_category_rule_order.2.2 5 100 0 10 20 rfl (by decide),
    C2_risk_category_rule_order.2.1 c2Table [c2Scored] (by decide) c2Scored
      (by decide)⟩

/-! ## Claim C9 -/

/-- C9: Policy B maps every numeric days-late value without raising:
`age < 1` (negatives included) is `"Current"`, `[1,3]` is `"1-3 Days"`,
`[4,5]` is `"4-5 Days"`, `[6,9]` is `"6-9 Days"`, `[10,30]` is
`"10-30 Days"` and `> 30` is `"31+ Days"`; the companion ordinal
`get_bucket_id` always agrees with the label's dense ordinal 0..5. -/
lemma bucketB_current {d : ℚ} (h : d < 1) : getBucketB d = "Current" := by
  unfold getBucketB
  rw [if_pos h]

lemma bucketB_1_3 {d : ℚ} (h1 : 1 ≤ d) (h2 : d ≤ 3) : getBucketB d = "1-3 Days" := by
  unfold getBucketB
  rw [if_neg (by linarith), if_pos ⟨h1, h2⟩]

lemma bucketB_4_5 {d : ℚ} (h1 : 4 ≤ d) (h2 : d ≤ 5) : getBucketB d = "4-5 Days" := by
  unfold getBucketB
  rw [if_neg (by linarith), if_neg (by rintro ⟨_, hb⟩; linarith),
    if_pos ⟨h1, h2⟩]

lemma bucketB_6_9 {d : ℚ} (h1 : 6 ≤ d) (h2 : d ≤ 9) : getBucketB d = "6-9 Days" := by
  unfold getBucketB
  rw [if_neg (by linarith), if_neg (by rintro ⟨_, hb⟩; linarith),
    if_neg (by rintro ⟨_, hb⟩; linarith), if_pos ⟨h1, h2⟩]

lemma bucketB_10_30 {d : ℚ} (h1 : 10 ≤ d) (h2 : d ≤ 30) :
    getBucketB d = "10-30 Days" := by
  unfold getBucketB
  rw [if_neg (by linarith), if_neg (by rintro ⟨_, hb⟩; linarith),
    if_neg (by rintro ⟨_, hb⟩; linarith), if_neg (by rintro ⟨_, hb⟩; linarith),
    if_pos ⟨h1, h2⟩]

lemma bucketB_31plus {d : ℚ} (h : 30 < d) : getBucketB d = "31+ Days" := by
  unfold getBucketB
  rw [if_neg (by linarith), if_neg (by rintro ⟨_, hb⟩; linarith),
    if_neg (by rintro ⟨_, hb⟩; linarith), if_neg (by rintro ⟨_, hb⟩; linarith),
    if_neg (by rintro ⟨_, hb⟩; linarith)]

/-- C9: Policy B maps every numeric days-late value without raising:
`age < 1` (negatives included) is `"Current"`, `[1,3]` is `"1-3 Days"`,
`[4,5]` is `"4-5 Days"`, `[6,9]` is `"6-9 Days"`, `[10,30]` is
`"10-30 Days"` and `> 30` is `"31+ Days"`; the companion ordinal
`get_bucket_id` always agrees with the label's dense ordinal 0..5. -/
theorem C9_policyB_buckets_and_ordinals :
    (∀ d : ℚ,
      (d < 1 → getBucketB d = "Current")
      ∧ (1 ≤ d ∧ d ≤ 3 → getBucketB d = "1-3 Days")
      ∧ (4 ≤ d ∧ d ≤ 5 → getBucketB d = "4-5 Days")
      ∧ (6 ≤ d ∧ d ≤ 9 → getBucketB d = "6-9 Days")
      ∧ (10 ≤ d ∧ d ≤ 30 → getBucketB d = "10-30 Days")
      ∧ (30 < d → getBucketB d = "31+ Days"))
    ∧ (∀ d : ℚ, getBucketB d ∈ bucketOrderB)
    ∧ (∀ d : ℚ, bucketOrderB.indexOf (getBucketB d) = getBucketIdB d) := by
  refine ⟨fun d => ?_, fun d => ?_, fun d => ?_⟩
  · exact ⟨bucketB_current, fun h => bucketB_1_3 h.1 h.2, fun h => bucketB_4_5 h.1 h.2,
      fun h => bucketB_6_9 h.1 h.2, fun h => bucketB_10_30 h.1 h.2, bucketB_31plus⟩
  · unfold getBucketB
    split_ifs <;> decide
  · unfold getBucketB getBucketIdB
    split_ifs <;> decide

theorem C9_policyB_witness :
    getBucketB (-7) = "Current" ∧ getBucketB 2 = "1-3 Days"
    ∧ getBucketB 4 = "4-5 Days" ∧ getBucketB 9 = "6-9 Days"
    ∧ getBucketB 30 = "10-30 Days" ∧ getBucketB 1000000 = "31+ Days" :=
  ⟨((C9_policyB_buckets_and_ordinals.1 (-7)).1 (by decide)),
    ((C9_policyB_buckets_and_ordinals.1 2).2.1 (by decide)),
    ((C9_policyB_buckets_and_ordinals.1 4).2.2.1 (by decide)),
    ((C9_policyB_buckets_and_ordinals.1 9).2.2.2.1 (by decide)),
    ((C9_policyB_buckets_and_ordinals.1 30).2.2.2.2.1 (by decide)),
    ((C9_policyB_buckets_and_ordinals.1 1000000).2.2.2.2.2 (by decide))⟩

/-! ## Claim C5 -/

lemma bucketA_eq_1_15 (d : ℚ) : getBucketA d = "1-15" ↔ 1 ≤ d ∧ d ≤ 15 := by
  unfold getBucketA
  split_ifs with h1 h2 h3
  · exact iff_of_true rfl h1
  · exact iff_of_false (by decide) h1
  · exact iff_of_false (by decide) h1
  · exact iff_of_false (by decide) h1

lemma bucketA_eq_16_30 (d : ℚ) : getBucketA d = "16-30" ↔ 16 ≤ d ∧ d ≤ 30 := by
  unfold getBucketA
  split_ifs with h1 h2 h3
  · exact iff_of_false (by decide) (by rintro ⟨ha, _⟩; linarith [h1.2])
  · exact iff_of_true rfl h2
  · exact iff_of_false (by decide) h2
  · exact iff_of_false (by decide) h2

lemma bucketA_eq_31_180 (d : ℚ) : getBucketA d = "31-180" ↔ 31 ≤ d ∧ d ≤ 180 := by
  unfold getBucketA
  split_ifs with h1 h2 h3
  · exact iff_of_false (by decide) (by rintro ⟨ha, _⟩; linarith [h1.2])
  · exact iff_of_false (by decide) (by rintro ⟨ha, _⟩; linarith [h2.2])
  · exact iff_of_true rfl h3
  · exact iff_of_false (by decide) h3

lemma bucketA_eq_other (d : ℚ) : getBucketA d = "Other" ↔
    ¬(1 ≤ d ∧ d ≤ 15) ∧ ¬(16 ≤ d ∧ d ≤ 30) ∧ ¬(31 ≤ d ∧ d ≤ 180) := by
  unfold getBucketA
  split_ifs with h1 h2 h3
  · exact iff_of_false (by decide) (fun hr => hr.1 h1)
  · exact iff_of_false (by decide) (fun hr => hr.2.1 h2)
  · exact iff_of_false (by decide) (fun hr => hr.2.2 h3)
  · exact iff_of_true rfl ⟨h1, h2, h3⟩

/-- Inversion of a successful `process_data` run. -/
lemma processData_ok_inv {ts : SodTable} {tc : CurTable} {out : ProcOutput}
    (h : processData (.tbl ts) (.tbl tc) = .ok out) :
    ((cleanSodRows ts.rows).map (fun r => r.loanId)).Nodup
    ∧ ((cleanCurRows tc.rows).map (fun r => r.loanId)).Nodup
    ∧ out.merged = mergeRows (cleanSodRows ts.rows) (cleanCurRows tc.rows)
    ∧ out.collected = (((mergeRows (cleanSodRows ts.rows) (cleanCurRows tc.rows)).filter
        (fun m => decide (0 < m.collected))).map
          (fun m => CollectedRow.mk m (getBucketAOpt m.ageSOD))).filter
        (fun c => validBuckets.contains c.bucket)
    ∧ out.officers =
        (((cleanSodRows ts.rows).map (fun r => r.salesRep)).dedup).insertionSort strLE := by
  simp only [processData] at h
  split at h
  · split at h
    · split at h
      · split at h
        · obtain rfl := (Except.ok.inj h).symm
          refine ⟨by assumption, by assumption, rfl, rfl, rfl⟩
        · exact absurd h (by simp)
      · exact absurd h (by simp)
    · exact absurd h (by simp)
  · exact absurd h (by simp)

/-- C5: Policy A is a total function: `"1-15"` exactly on `[1,15]`,
`"16-30"` exactly on `[16,30]`, `"31-180"` exactly on `[31,180]`, and
`"Other"` everywhere else (negative, zero, very large, and non-integer
gap values included); and every row of the collected table has a bucket
in `VALID_BUCKETS`, never `"Other"`. -/
theorem C5_policyA_total_and_other_excluded :
    (∀ d : ℚ,
      (getBucketA d = "1-15" ↔ 1 ≤ d ∧ d ≤ 15)
      ∧ (getBucketA d = "16-30" ↔ 16 ≤ d ∧ d ≤ 30)
      ∧ (getBucketA d = "31-180" ↔ 31 ≤ d ∧ d ≤ 180)
      ∧ (getBucketA d = "Other" ↔
          ¬(1 ≤ d ∧ d ≤ 15) ∧ ¬(16 ≤ d ∧ d ≤ 30) ∧ ¬(31 ≤ d ∧ d ≤ 180)))
    ∧ (∀ (ts : SodTable) (tc : CurTable) (out : ProcOutput),
        processData (.tbl ts) (.tbl tc) = .ok out →
        ∀ c ∈ out.collected, c.bucket ∈ validBuckets ∧ c.bucket ≠ "Other") := by
  constructor
  · exact fun d =>
      ⟨bucketA_eq_1_15 d, bucketA_eq_16_30 d, bucketA_eq_31_180 d, bucketA_eq_other d⟩
  · intro ts tc out h c hc
    rw [(processData_ok_inv h).2.2.2.1] at hc
    have hmem := (List.mem_filter.mp hc).2
    have hvb : c.bucket ∈ validBuckets := List.mem_of_elem_eq_true hmem
    refine ⟨hvb, ?_⟩
    intro hother
    rw [hother] at hvb
    exact absurd hvb (by decide)

/-- The spec's concrete scenario: SOD row
`{LoanId: 1, SalesRep: "john", ArrearsAmount: 1000, DaysInArrears: 10}`. -/
def w5Sod : SodTable := ⟨true, true, true, true, [⟨some 1, some "john", some 1000, some 10⟩]⟩

/-- The spec's concrete scenario: current row `{LoanId: 1, ArrearsAmount: 200}`. -/
def w5Cur : CurTable := ⟨true, true, [⟨some 1, some 200⟩]⟩

/-- The processed output of the scenario: `SalesRep` title-cased to
`"John"`, `Collected = 800`, bucket `"1-15"`. -/
def w5Out : ProcOutput :=
  ⟨[⟨⟨1, "John", 1000, some 10, 200, 800⟩, "1-15"⟩],
    [⟨1, "John", 1000, some 10, 200, 800⟩], ["John"]⟩

/-- The single collected row of the scenario. -/
def w5Row : CollectedRow := ⟨⟨1, "John", 1000, some 10, 200, 800⟩, "1-15"⟩

theorem C5_policyA_witness :
    w5Row.bucket ∈ validBuckets ∧ w5Row.bucket ≠ "Other" :=
  C5_policyA_total_and_other_excluded.2 w5Sod w5Cur w5Out (by decide) w5Row (by decide)

/-! ## Claim C10 -/

/-- C10: the public entry points `ArrearsProcessorAPI.process` and
`ArrearsRiskAnalyzer.analyze` always return a dictionary whose `status`
is either `"success"` or `"error"` — for unreadable bytes, missing
required columns, duplicate join keys, empty tables and everything else
— and never propagate an exception (the embedded functions are total). -/
theorem C10_api_status_total :
    (∀ (fs : FileSod) (fc : FileCur) (targets : Option (List (String × ℚ)))
      (fmt : String),
      (processAPI fs fc targets fmt).status = "success"
      ∨ (processAPI fs fc targets fmt).status = "error")
    ∧ (∀ fi : RiskFile,
      (analyzeAPI fi).status = "success" ∨ (analyzeAPI fi).status = "error") := by
  constructor
  · intro fs fc targets fmt
    unfold processAPI
    rcases hpd : processData fs fc with e | out
    · right
      rfl
    · by_cases hempty : out.collected.isEmpty
      · left
        simp [hempty]
      · by_cases hfmt : lowerStr fmt == "excel"
        · left
          simp [hempty, hfmt]
        · left
          simp [hempty, hfmt]
  · intro fi
    unfold analyzeAPI
    rcases hl : loadCleanRisk fi with e | t
    · right
      rfl
    · rcases hm : calculateRiskMetrics (some t) with e2 | cr
      · right
        simp only [hm]
      · left
        simp only [hm]

/-! ## Claim C8 -/

/-- C8: the risk scorer returns an empty successful result on an empty
cohort (not an error), never raises on a one-account cohort, and the
percentile of a single value is that value itself for every `p`
(pandas linear interpolation collapses on one point). -/
theorem C8_empty_and_singleton_cohorts :
    calculateRiskMetrics (some ⟨true, true, true, true, []⟩) = .ok []
    ∧ (∀ r : RiskRow, ∃ s : ScoredRow,
        calculateRiskMetrics (some ⟨true, true, true, true, [r]⟩) = .ok [s])
    ∧ (∀ x p : ℚ, quantileQ [x] p = some x) := by
  refine ⟨by decide, fun r => ⟨_, rfl⟩, fun x p => ?_⟩
  simp [quantileQ, List.insertionSort, List.orderedInsert]

/-! ## Claim C3 -/

lemma filter_key_length_one {l : List SodClean}
    (hnd : (l.map (fun s => s.loanId)).Nodup) {r : SodClean} (hr : r ∈ l) :
    (l.filter (fun s => s.loanId == r.loanId)).length = 1 := by
  have h1 : (l.map (fun s => s.loanId)).count r.loanId = 1 :=
    List.count_eq_one_of_mem hnd (List.mem_map_of_mem _ hr)
  rw [List.count, List.countP_map, List.countP_eq_length_filter] at h1
  exact h1

/-- C3: every SOD row surviving validation appears exactly once in the
merged output (left-join semantics); a row with no matching current-side
row gets `Arrears_CUR = 0` rather than a missing value, so its
`Collected` equals its `Arrears_SOD`. -/
theorem C3_left_join_semantics (ts : SodTable) (tc : CurTable) (out : ProcOutput)
    (h : processData (.tbl ts) (.tbl tc) = .ok out) :
    out.merged.length = (cleanSodRows ts.rows).length
    ∧ (∀ r ∈ cleanSodRows ts.rows,
        (out.merged.filter (fun m => m.loanId == r.loanId)).length = 1)
    ∧ (∀ m ∈ out.merged, lookupCur (cleanCurRows tc.rows) m.loanId = none →
        m.arrearsCUR = 0 ∧ m.collected = m.arrearsSOD) := by
  obtain ⟨hnd, -, hm, -, -⟩ := processData_ok_inv h
  refine ⟨?_, ?_, ?_⟩
  · rw [hm]
    exact List.length_map _ _
  · intro r hr
    rw [hm]
    unfold mergeRows
    rw [List.filter_map]
    rw [List.length_map]
    exact filter_key_length_one hnd hr
  · intro m hmem hnone
    rw [hm] at hmem
    unfold mergeRows at hmem
    rw [List.mem_map] at hmem
    obtain ⟨s, -, rfl⟩ := hmem
    simp only at hnone ⊢
    rw [hnone]
    exact ⟨rfl, sub_zero _⟩

/-- A SOD table whose single row has no current-side match. -/
def w3Sod : SodTable := ⟨true, true, true, true, [⟨some 7, some "ann", some 1000, some 12⟩]⟩

/-- An empty current table (every loan paid off). -/
def w3Cur : CurTable := ⟨true, true, []⟩

/-- The expected output: the unmatched row keeps `Arrears_CUR = 0` and
`Collected = Arrears_SOD = 1000`. -/
def w3Out : ProcOutput :=
  ⟨[⟨⟨7, "Ann", 1000, some 12, 0, 1000⟩, "1-15"⟩],
    [⟨7, "Ann", 1000, some 12, 0, 1000⟩], ["Ann"]⟩

/-- The clean SOD row of `w3Sod`. -/
def w3Clean : SodClean := ⟨7, "Ann", 1000, some 12⟩

/-- The merged row of `w3Out`. -/
def w3Merged : MergedRow := ⟨7, "Ann", 1000, some 12, 0, 1000⟩

theorem C3_left_join_semantics_witness :
    (w3Out.merged.filter (fun m => m.loanId == w3Clean.loanId)).length = 1
    ∧ w3Merged.arrearsCUR = 0 ∧ w3Merged.collected = w3Merged.arrearsSOD :=
  ⟨(C3_left_join_semantics w3Sod w3Cur w3Out (by decide)).2.1 w3Clean (by decide),
    (C3_left_join_semantics w3Sod w3Cur w3Out (by decide)).2.2 w3Merged (by decide)
      (by decide)⟩

/-! ## Claim C4 -/

/-- C4: duplicate join keys on either side of the reconciliation make
`process_data` fail (`validate="one_to_one"` raises `MergeError`); no
merged or collected output is produced for such input. -/
theorem C4_duplicate_keys_rejected (ts : SodTable) (tc : CurTable)
    (hdup : ¬((cleanSodRows ts.rows).map (fun r => r.loanId)).Nodup
      ∨ ¬((cleanCurRows tc.rows).map (fun r => r.loanId)).Nodup) :
    (processData (.tbl ts) (.tbl tc)).isOk = false
    ∧ ∃ msg, processData (.tbl ts) (.tbl tc) = .error msg := by
  have herr : ∃ msg, processData (.tbl ts) (.tbl tc) = .error msg := by
    simp only [processData]
    split
    · split
      · split
        · split
          · rename_i hn1 hn2
            rcases hdup with hd | hd
            · exact absurd hn1 hd
            · exact absurd hn2 hd
          · exact ⟨_, rfl⟩
        · exact ⟨_, rfl⟩
      · exact ⟨_, rfl⟩
    · exact ⟨_, rfl⟩
  obtain ⟨msg, hmsg⟩ := herr
  rw [hmsg]
  exact ⟨rfl, ⟨msg, rfl⟩⟩

/-- A SOD table in which `LoanId = 3` appears twice. -/
def w4Sod : SodTable :=
  ⟨true, true, true, true,
    [⟨some 3, some "ann", some 100, some 5⟩, ⟨some 3, some "bob", some 40, some 8⟩]⟩

/-- A well-formed current table. -/
def w4Cur : CurTable := ⟨true, true, [⟨some 3, some 10⟩]⟩

theorem C4_duplicate_keys_rejected_witness :
    (processData (.tbl w4Sod) (.tbl w4Cur)).isOk = false :=
  (C4_duplicate_keys_rejected w4Sod w4Cur (Or.inl (by decide))).1

/-! ## Claim C6 -/

/-- The officer named by a portfolio-header sheet row. -/
def headerName (x : SheetRow) : Option String :=
  match x with
  | .header o => some o
  | _ => none

/-- The sequence of portfolio headers of a sheet fragment. -/
def headerNames (l : List SheetRow) : List String := l.filterMap headerName

/-- The risk tier named by a subtotal sheet row. -/
def subtotalCat (x : SheetRow) : Option String :=
  match x with
  | .subtotal _ cat _ _ _ _ => some cat
  | _ => none

/-- The sequence of tier subtotals of a sheet fragment. -/
def sheetCats (l : List SheetRow) : List String := l.filterMap subtotalCat

lemma sheetCats_catBlock (cr : List ScoredRow) (o cat : String) :
    sheetCats (catBlock cr o cat) = [] ∨ sheetCats (catBlock cr o cat) = [cat] := by
  simp only [catBlock, sheetCats]
  split
  · left
    rfl
  · right
    rw [List.filterMap_append, List.filterMap_map]
    rw [show (subtotalCat ∘ SheetRow.detail) = fun _ => none from rfl]
    simp [subtotalCat]

lemma sheetCats_append (l1 l2 : List SheetRow) :
    sheetCats (l1 ++ l2) = sheetCats l1 ++ sheetCats l2 :=
  List.filterMap_append l1 l2 subtotalCat

lemma sheetCats_officerBlock (cr : List ScoredRow) (o : String) :
    (sheetCats (officerBlock cr o)).Sublist riskCats := by
  have hmain : sheetCats (officerBlock cr o)
      = sheetCats (catBlock cr o "High Risk") ++ (sheetCats (catBlock cr o "Medium Risk")
        ++ sheetCats (catBlock cr o "Low Risk")) := by
    show sheetCats ([SheetRow.header o] ++
        (riskCats.map (catBlock cr o)).flatten ++ [SheetRow.spacer]) = _
    rw [sheetCats_append, sheetCats_append]
    rw [show sheetCats [SheetRow.header o] = [] from rfl,
      show sheetCats [SheetRow.spacer] = [] from rfl]
    rw [show (riskCats.map (catBlock cr o)).flatten
      = catBlock cr o "High Risk" ++ (catBlock cr o "Medium Risk"
        ++ (catBlock cr o "Low Risk" ++ [])) from rfl]
    rw [sheetCats_append, sheetCats_append, sheetCats_append]
    simp [sheetCats]
  rw [hmain]
  have hsub : ∀ c : String, (sheetCats (catBlock cr o c)).Sublist [c] := by
    intro c
    rcases sheetCats_catBlock cr o c with h | h
    · rw [h]
      exact List.nil_sublist _
    · rw [h]
  show List.Sublist _ (["High Risk"] ++ (["Medium Risk"] ++ ["Low Risk"]))
  exact (hsub "High Risk").append ((hsub "Medium Risk").append (hsub "Low Risk"))

lemma headerNames_append (l1 l2 : List SheetRow) :
    headerNames (l1 ++ l2) = headerNames l1 ++ headerNames l2 :=
  List.filterMap_append l1 l2 headerName

lemma headerNames_officerBlock (cr : List ScoredRow) (o : String) :
    headerNames (officerBlock cr o) = [o] := by
  show headerNames ([SheetRow.header o] ++
      (riskCats.map (catBlock cr o)).flatten ++ [SheetRow.spacer]) = [o]
  rw [headerNames_append, headerNames_append]
  rw [show headerNames [SheetRow.header o] = [o] from rfl,
    show headerNames [SheetRow.spacer] = [] from rfl]
  have h2 : headerNames (riskCats.map (catBlock cr o)).flatten = [] := by
    rw [show (riskCats.map (catBlock cr o)).flatten
      = catBlock cr o "High Risk" ++ (catBlock cr o "Medium Risk"
        ++ (catBlock cr o "Low Risk" ++ [])) from rfl]
    rw [headerNames_append, headerNames_append, headerNames_append]
    have hcat : ∀ c : String, headerNames (catBlock cr o c) = [] := by
      intro c
      simp only [catBlock, headerNames]
      split
      · rfl
      · rw [List.filterMap_append, List.filterMap_map]
        rw [show (headerName ∘ SheetRow.detail) = fun _ => none from rfl]
        simp [headerName]
    rw [hcat, hcat, hcat]
    rfl
  rw [h2]
  rfl

lemma headerNames_printableSheet (cr : List ScoredRow) :
    headerNames (printableSheet cr) = sheetOfficers cr := by
  unfold printableSheet
  generalize sheetOfficers cr = offs
  induction offs with
  | nil => rfl
  | cons o os ih =>
    rw [List.map_cons, List.flatten_cons]
    unfold headerNames
    rw [List.filterMap_append]
    rw [show List.filterMap headerName (officerBlock cr o)
      = headerNames (officerBlock cr o) from rfl, headerNames_officerBlock]
    rw [show List.filterMap headerName ((os.map (officerBlock cr)).flatten)
      = headerNames ((os.map (officerBlock cr)).flatten) from rfl, ih]
    rfl

instance : IsTotal SummaryRow (fun a b => b.grandTotal ≤ a.grandTotal) :=
  ⟨fun a b => le_total b.grandTotal a.grandTotal⟩

instance : IsTrans SummaryRow (fun a b => b.grandTotal ≤ a.grandTotal) :=
  ⟨fun _ _ _ hab hbc => le_trans hbc hab⟩

lemma summaryRows_sorted_desc (c : List CollectedRow) (officers : List String)
    (tj : Option (List (String × ℚ))) :
    ((summaryUnrounded c officers tj).rows).Sorted
      (fun a b => b.grandTotal ≤ a.grandTotal) := by
  unfold summaryUnrounded
  by_cases h : (parseTargets (tj.getD [])).isEmpty
  · simp only [h, if_true]
    exact List.sorted_insertionSort _ _
  · simp only [h, if_false]
    refine List.Pairwise.map _ ?_ (List.sorted_insertionSort _ _)
    exact fun a b hab => hab

/-- C6 counterexample: in `create_formatted_table` the officer rows are
sorted by `Grand Total` descending (line 269), not by officer name
ascending: with "Ann" collecting 0 and "Bob" collecting 100, the
presented order is Bob before Ann although `"Ann" < "Bob"`. -/
def cex6Sod : SodTable :=
  ⟨true, true, true, true,
    [⟨some 1, some "ann", some 50, some 10⟩, ⟨some 2, some "bob", some 100, some 10⟩]⟩

/-- Current side of the C6 counterexample: Ann's loan unchanged (zero
collected), Bob's loan absent (100 collected). -/
def cex6Cur : CurTable := ⟨true, true, [⟨some 1, some 50⟩]⟩

theorem C6_counterexample_officer_order :
    (processData (.tbl cex6Sod) (.tbl cex6Cur)).map (fun out =>
        (createFormattedTable out.collected out.officers none).map (fun r => r.officer))
      = .ok ["Bob", "Ann", "GRAND TOTAL"]
    ∧ ("Ann" : String) < "Bob"
    ∧ ¬ (["Bob", "Ann"].Sorted (fun a b : String => a ≤ b)) := by
  have hlt : ("Ann" : String) < "Bob" := by
    rw [String.lt_iff_toList_lt]
    exact List.Lex.rel (show ('A' : Char) < 'B' by decide)
  refine ⟨by decide, hlt, ?_⟩
  intro hs
  have hba : ("Bob" : String) ≤ "Ann" :=
    List.rel_of_sorted_cons hs "Ann" (by simp)
  exact absurd hlt (not_lt.mpr hba)

/-- C6 amended: the dues report and the printable risk sheet present
officer groups in ascending lexical order, and within an officer the
risk-tier blocks follow the canonical severity order High, Medium, Low;
the collected summary pivot instead orders its officer rows by
`Grand Total` descending. -/
theorem C6_group_order_amended :
    (∀ rows : List DuesRow, (duesGroups rows).Sorted (fun a b : String => a ≤ b))
    ∧ (∀ cr : List ScoredRow, (sheetOfficers cr).Sorted (fun a b : String => a ≤ b)
        ∧ headerNames (printableSheet cr) = sheetOfficers cr)
    ∧ (∀ (cr : List ScoredRow) (o : String),
        (sheetCats (officerBlock cr o)).Sublist riskCats)
    ∧ (∀ (c : List CollectedRow) (officers : List String)
        (tj : Option (List (String × ℚ))),
        ((summaryUnrounded c officers tj).rows).Sorted
          (fun a b => b.grandTotal ≤ a.grandTotal)) :=
  ⟨fun _ => (List.sorted_insertionSort _ _).imp (fun h => (strLE_iff_le _ _).mp h),
    fun cr => ⟨(List.sorted_insertionSort _ _).imp (fun h => (strLE_iff_le _ _).mp h),
      headerNames_printableSheet cr⟩,
    sheetCats_officerBlock,
    summaryRows_sorted_desc⟩

/-! ## Claim C7 -/

/-- The closed form of the SOD-side cleaning: exactly the rows with a
populated join key and arrears amount survive, and the (possibly
missing) age cell passes through unchanged. -/
lemma cleanSodRows_eq (raws : List SodRaw) :
    cleanSodRows raws
      = (raws.filter (fun r => r.loanId.isSome && r.arrears.isSome)).map
          (fun r => ⟨r.loanId.getD 0, normalizeOfficer r.salesRep, r.arrears.getD 0, r.age⟩) := by
  unfold cleanSodRows
  induction raws with
  | nil => rfl
  | cons r rs ih =>
    rw [List.filterMap_cons, List.filter_cons]
    obtain ⟨lid, rep, arr, age⟩ := r
    rcases lid with _ | k <;> rcases arr with _ | a <;> simp [ih]

/-- A SOD row whose `DaysInArrears` cell failed numeric parsing. -/
def c7Row : SodRaw := ⟨some 1, some "john", some 100, none⟩

/-- C7 counterexample: the row with the unparseable `DaysInArrears`
cell is kept, but the cell stays missing (NaN) — it is not replaced by
the default 0, contradicting the claim that every kept unparseable
numeric cell is defaulted to 0. -/
theorem C7_counterexample_age_not_defaulted :
    (cleanSodRows [c7Row]).length = 1
    ∧ (cleanSodRows [c7Row]).map (fun r => r.age) = [none]
    ∧ (none : Option ℚ) ≠ some 0 := by decide

/-- C7 amended: in the risk module every unparseable numeric cell is
defaulted to 0 and no row is dropped; in the reconciliation module a
row is dropped exactly when the join key or the arrears amount is
missing/unparseable, and an unparseable `DaysInArrears` is kept as a
missing value (later bucketed `"Other"`), not defaulted to 0. -/
theorem C7_parse_failure_defaults_amended :
    (∀ (hasO hasF : Bool) (raws : List RiskRawRow),
      (raws.map (cleanRiskRow hasO hasF)).length = raws.length
      ∧ ∀ r ∈ raws,
          (cleanRiskRow hasO hasF r).installmentNo = r.installmentNo.getD 0
          ∧ (cleanRiskRow hasO hasF r).amountDue = r.amountDue.getD 0
          ∧ (cleanRiskRow hasO hasF r).arrears = r.arrears.getD 0
          ∧ (cleanRiskRow hasO hasF r).loanBalance = r.loanBalance.getD 0)
    ∧ (∀ raws : List SodRaw,
        cleanSodRows raws
          = (raws.filter (fun r => r.loanId.isSome && r.arrears.isSome)).map
              (fun r => ⟨r.loanId.getD 0, normalizeOfficer r.salesRep,
                r.arrears.getD 0, r.age⟩))
    ∧ (∀ (raws : List SodRaw) (r : SodRaw), r ∈ raws →
        ∀ (k : ℤ) (a : ℚ), r.loanId = some k → r.arrears = some a →
        (⟨k, normalizeOfficer r.salesRep, a, r.age⟩ : SodClean) ∈ cleanSodRows raws) := by
  refine ⟨?_, cleanSodRows_eq, ?_⟩
  · intro hasO hasF raws
    exact ⟨List.length_map raws _, fun r _ => ⟨rfl, rfl, rfl, rfl⟩⟩
  · intro raws r hr k a hk ha
    rw [cleanSodRows_eq]
    have hf : r ∈ raws.filter (fun r => r.loanId.isSome && r.arrears.isSome) :=
      List.mem_filter.mpr ⟨hr, by rw [hk, ha]; rfl⟩
    have := List.mem_map_of_mem
      (fun r : SodRaw => (⟨r.loanId.getD 0, normalizeOfficer r.salesRep,
        r.arrears.getD 0, r.age⟩ : SodClean)) hf
    simp only [hk, ha, Option.getD_some] at this
    exact this

/-- A risk-module row whose arrears cell failed parsing. -/
def c7Risk : RiskRawRow := ⟨some "x", some "1", some 1, some 10, none, some 5, none, some "A"⟩

theorem C7_parse_failure_defaults_witness :
    ((cleanRiskRow true true c7Risk).arrears = c7Risk.arrears.getD 0
      ∧ (cleanRiskRow true true c7Risk).arrears = 0)
    ∧ (⟨1, normalizeOfficer c7Row.salesRep, 100, c7Row.age⟩ : SodClean)
        ∈ cleanSodRows [c7Row] :=
  ⟨⟨(C7_parse_failure_defaults_amended.1 true true [c7Risk]).2 c7Risk (by decide) |>.2.2.1,
      by decide⟩,
    C7_parse_failure_defaults_amended.2.2 [c7Row] c7Row (by decide) 1 100 rfl rfl⟩

/-! ## Claim C1 -/

lemma rows_map_sum (c : List CollectedRow) (officers : List String)
    (tj : Option (List (String × ℚ))) (f : SummaryRow → ℚ)
    (hf : ∀ ts r, f (withTargets ts r) = f r) :
    ((summaryUnrounded c officers tj).rows.map f).sum
      = (((summaryNames c officers).map (baseRow c)).map f).sum := by
  unfold summaryUnrounded
  by_cases h : (parseTargets (tj.getD [])).isEmpty
  · simp only [h, if_true]
    exact ((List.perm_insertionSort _ _).map f).sum_eq
  · simp [h, List.map_map]
    rw [show (f ∘ withTargets (parseTargets (tj.getD []))) = f from funext (hf _)]
    rw [show List.map (f ∘ baseRow c) (summaryNames c officers)
      = List.map f (List.map (baseRow c) (summaryNames c officers)) from
        (List.map_map _ _ _).symm]
    exact ((List.perm_insertionSort _ _).map f).sum_eq

lemma grand_is_column_sum (c : List CollectedRow) (officers : List String)
    (tj : Option (List (String × ℚ))) :
    (summaryUnrounded c officers tj).grand.b15
        = ((summaryUnrounded c officers tj).rows.map (fun r => r.b15)).sum
    ∧ (summaryUnrounded c officers tj).grand.b30
        = ((summaryUnrounded c officers tj).rows.map (fun r => r.b30)).sum
    ∧ (summaryUnrounded c officers tj).grand.b180
        = ((summaryUnrounded c officers tj).rows.map (fun r => r.b180)).sum
    ∧ (summaryUnrounded c officers tj).grand.grandTotal
        = ((summaryUnrounded c officers tj).rows.map (fun r => r.grandTotal)).sum := by
  unfold summaryUnrounded
  by_cases h : (parseTargets (tj.getD [])).isEmpty <;> simp [h]

lemma grand_targets_case (c : List CollectedRow) (officers : List String)
    (tj : Option (List (String × ℚ)))
    (hne : ¬ (parseTargets (tj.getD [])).isEmpty = true) :
    (summaryUnrounded c officers tj).grand.target
        = some (((summaryUnrounded c officers tj).rows.map (fun r => r.target.getD 0)).sum)
    ∧ (summaryUnrounded c officers tj).grand.remaining
        = some (((summaryUnrounded c officers tj).rows.map (fun r => r.remaining.getD 0)).sum)
    ∧ (summaryUnrounded c officers tj).grand.achievement
        = some (if 0 < ((summaryUnrounded c officers tj).rows.map (fun r => r.target.getD 0)).sum
            then ((summaryUnrounded c officers tj).rows.map (fun r => r.grandTotal)).sum
              / ((summaryUnrounded c officers tj).rows.map (fun r => r.target.getD 0)).sum * 100
            else 0) := by
  unfold summaryUnrounded
  simp only [if_neg hne]
  refine ⟨trivial, ?_, trivial⟩
  simp only [Option.some.injEq]
  rw [List.map_map, List.map_map, List.map_map]
  rw [show ((fun r : SummaryRow => r.remaining.getD 0)
      ∘ withTargets (parseTargets (tj.getD [])))
    = fun r => lookupTarget (parseTargets (tj.getD [])) r.officer - r.grandTotal from rfl]
  rw [show ((fun r : SummaryRow => r.target.getD 0)
      ∘ withTargets (parseTargets (tj.getD [])))
    = fun r => lookupTarget (parseTargets (tj.getD [])) r.officer from rfl]
  rw [show ((fun r : SummaryRow => r.grandTotal)
      ∘ withTargets (parseTargets (tj.getD [])))
    = fun r : SummaryRow => r.grandTotal from rfl]
  rw [sum_map_sub]

lemma cellSum_filter (c : List CollectedRow) (o b : String) :
    cellSum c o b = (((c.filter (fun x => decide (x.row.salesRep = o))).filter
        (fun x => decide (x.bucket = b))).map (fun x => x.row.collected)).sum := by
  unfold cellSum
  rw [List.filter_congr (fun x _ => show (x.row.salesRep == o && x.bucket == b)
      = (decide (x.bucket = b) && decide (x.row.salesRep = o)) from by
        by_cases h1 : x.row.salesRep = o <;> by_cases h2 : x.bucket = b <;>
          simp [h1, h2])]
  rw [List.filter_filter]

lemma officer_bucket_split (c : List CollectedRow) (o : String)
    (hb : ∀ x ∈ c, x.bucket ∈ validBuckets) :
    cellSum c o "1-15" + cellSum c o "16-30" + cellSum c o "31-180"
      = ((c.filter (fun x => decide (x.row.salesRep = o))).map
          (fun x => x.row.collected)).sum := by
  have hfib := sum_fiberwise (c.filter (fun x => decide (x.row.salesRep = o)))
    (fun x => x.bucket) (fun x => x.row.collected) validBuckets (by decide)
    (fun x hx => hb x (List.mem_of_mem_filter hx))
  rw [show validBuckets = ["1-15", "16-30", "31-180"] from rfl] at hfib
  simp only [List.map_cons, List.map_nil, List.sum_cons, List.sum_nil] at hfib
  rw [cellSum_filter c o "1-15", cellSum_filter c o "16-30",
    cellSum_filter c o "31-180"]
  linarith [hfib]

lemma names_total (c : List CollectedRow) (officers : List String)
    (hb : ∀ x ∈ c, x.bucket ∈ validBuckets) :
    (((summaryNames c officers).map (baseRow c)).map (fun r => r.grandTotal)).sum
      = (c.map (fun x => x.row.collected)).sum := by
  rw [List.map_map]
  rw [show ((fun r : SummaryRow => r.grandTotal) ∘ baseRow c)
    = fun o => cellSum c o "1-15" + cellSum c o "16-30" + cellSum c o "31-180" from rfl]
  rw [List.map_congr_left (fun o _ => officer_bucket_split c o hb)]
  exact sum_fiberwise c (fun x => x.row.salesRep) (fun x => x.row.collected)
    (summaryNames c officers) (summaryNames_nodup c officers)
    (fun x hx => mem_summaryNames officers hx)

lemma duesGroupTotal_eq (rows : List DuesRow) (g : String) (v : DuesRow → ℚ) :
    duesGroupTotal rows g v
      = ((rows.filter (fun r => decide (r.officer = g))).map v).sum := by
  unfold duesGroupTotal
  congr 2

lemma duesGroups_nodup (rows : List DuesRow) : (duesGroups rows).Nodup :=
  (List.perm_insertionSort _ _).nodup_iff.mpr (List.nodup_dedup _)

lemma mem_duesGroups {rows : List DuesRow} {r : DuesRow} (h : r ∈ rows) :
    r.officer ∈ duesGroups rows := by
  unfold duesGroups
  rw [List.mem_insertionSort, List.mem_dedup]
  exact List.mem_map_of_mem _ h

/-- C1 amended: in the collected summary table the GRAND TOTAL row is
the exact column-wise sum of the officer rows on every summed numeric
column (the three buckets, Grand Total, Target, Remaining), computed at
full precision, with the 2-decimal rounding applied once at the final
presentation step; the GRAND TOTAL `Achievement %` is instead
recomputed from the grand totals (division of sums, not the column
sum); the grand total also reconciles exactly with the collected detail
rows, and the dues-report grand totals are the exact sums of the group
subtotals and of the detail rows. -/
theorem C1_grand_total_amended :
    (∀ (c : List CollectedRow) (officers : List String)
      (tj : Option (List (String × ℚ))),
      (summaryUnrounded c officers tj).grand.b15
          = ((summaryUnrounded c officers tj).rows.map (fun r => r.b15)).sum
      ∧ (summaryUnrounded c officers tj).grand.b30
          = ((summaryUnrounded c officers tj).rows.map (fun r => r.b30)).sum
      ∧ (summaryUnrounded c officers tj).grand.b180
          = ((summaryUnrounded c officers tj).rows.map (fun r => r.b180)).sum
      ∧ (summaryUnrounded c officers tj).grand.grandTotal
          = ((summaryUnrounded c officers tj).rows.map (fun r => r.grandTotal)).sum)
    ∧ (∀ (c : List CollectedRow) (officers : List String)
      (tj : Option (List (String × ℚ))),
        ¬ (parseTargets (tj.getD [])).isEmpty = true →
        (summaryUnrounded c officers tj).grand.target
            = some (((summaryUnrounded c officers tj).rows.map
                (fun r => r.target.getD 0)).sum)
        ∧ (summaryUnrounded c officers tj).grand.remaining
            = some (((summaryUnrounded c officers tj).rows.map
                (fun r => r.remaining.getD 0)).sum))
    ∧ (∀ (c : List CollectedRow) (officers : List String)
      (tj : Option (List (String × ℚ))),
        createFormattedTable c officers tj
          = ((summaryUnrounded c officers tj).rows
              ++ [(summaryUnrounded c officers tj).grand]).map roundRow)
    ∧ (∀ (c : List CollectedRow) (officers : List String)
      (tj : Option (List (String × ℚ))),
        (∀ x ∈ c, x.bucket ∈ validBuckets) →
        (summaryUnrounded c officers tj).grand.grandTotal
          = (c.map (fun x => x.row.collected)).sum)
    ∧ (∀ (rows : List DuesRow) (v : DuesRow → ℚ),
        duesGrandTotal rows v
          = ((duesGroups rows).map (fun g => duesGroupTotal rows g v)).sum
        ∧ duesGrandTotal rows v = (rows.map v).sum) := by
  refine ⟨grand_is_column_sum, fun c officers tj hne =>
    ⟨(grand_targets_case c officers tj hne).1,
      (grand_targets_case c officers tj hne).2.1⟩,
    fun _ _ _ => rfl, ?_, ?_⟩
  · intro c officers tj hb
    rw [(grand_is_column_sum c officers tj).2.2.2]
    rw [rows_map_sum c officers tj (fun r => r.grandTotal) (fun _ _ => rfl)]
    exact names_total c officers hb
  · intro rows v
    refine ⟨rfl, ?_⟩
    unfold duesGrandTotal
    rw [List.map_congr_left (fun g _ => duesGroupTotal_eq rows g v)]
    exact sum_fiberwise rows (fun r => r.officer) v (duesGroups rows)
      (duesGroups_nodup rows) (fun x hx => mem_duesGroups hx)

/-- C1 counterexample input: Ann collects 100 (unmatched loan), Bob
collects 0 (arrears unchanged); both have target 100. -/
def cex1Sod : SodTable :=
  ⟨true, true, true, true,
    [⟨some 1, some "ann", some 100, some 10⟩, ⟨some 2, some "bob", some 50, some 20⟩]⟩

/-- Current side of the C1 counterexample. -/
def cex1Cur : CurTable := ⟨true, true, [⟨some 2, some 50⟩]⟩

/-- C1 counterexample: with targets present, the `Achievement %` cell of
the GRAND TOTAL row (50, recomputed as division of sums) differs from
the column-wise sum of the per-officer `Achievement %` cells
(100 + 0 = 100) — so the GRAND TOTAL row does not equal the column-wise
sum on every numeric column. -/
theorem C1_counterexample_achievement_column :
    (processData (.tbl cex1Sod) (.tbl cex1Cur)).map (fun out =>
        let t := summaryUnrounded out.collected out.officers
          (some [("Ann", 100), ("Bob", 100)])
        ((t.rows.map (fun r => r.achievement.getD 0)).sum, t.grand.achievement))
      = .ok (100, some 50)
    ∧ (100 : ℚ) ≠ 50 := by
  exact ⟨by decide, by decide⟩

theorem C1_grand_total_amended_witness :
    ((summaryUnrounded w5Out.collected w5Out.officers (some [("John", 1000)])).grand.target
        = some (((summaryUnrounded w5Out.collected w5Out.officers
            (some [("John", 1000)])).rows.map (fun r => r.target.getD 0)).sum))
    ∧ (summaryUnrounded w5Out.collected w5Out.officers (some [("John", 1000)])).grand.grandTotal
        = (w5Out.collected.map (fun x => x.row.collected)).sum :=
  ⟨(C1_grand_total_amended.2.1 w5Out.collected w5Out.officers
      (some [("John", 1000)]) (by decide)).1,
    C1_grand_total_amended.2.2.2.1 w5Out.collected w5Out.officers
      (some [("John", 1000)]) (by decide)⟩

